import Mathlib

/-!
Verification of the DyslexiQuest client core against its specification.

Shallow embedding of:
- the game session state machine (`useGameState` in the frontend:
  `startGame`, `sendInput`, `backtrackToTurn`),
- the retry wrapper `withRetry` of the API utility module,
- `loadGameState` of the localStorage module,
- the vocabulary engine (`VocabularyManager.addLearnedWord`,
  `highlightVocabularyWords`) of the vocabulary/accessibility utilities.

JavaScript numbers are modelled as `Int` where only comparisons and
increments occur; strings as Lean `String`; optional fields as `Option`;
a fallible network response as `Except String resp`.
-/

namespace DyslexiQuest

/-! ## Data model (types from the API utility module) -/

/-- `GameTurn` record from the API types. -/
structure GameTurn where
  turn : Int
  user_input : String
  ai_response : String
  vocabulary_words : List String
  timestamp : Int
  deriving Repr, DecidableEq

/-- `GameState` record from the API types.  `current_choices` is optional. -/
structure GameState where
  session_id : String
  turn : Int
  genre : String
  history : List GameTurn
  vocabulary_learned : List String
  game_over : Bool
  backtrack_count : Int
  current_choices : Option (List String)
  deriving Repr, DecidableEq

/-- Response of `POST /api/start`. -/
structure GameStartResponse where
  session_id : String
  story_intro : String
  turn : Int
  choices : Option (List String)
  deriving Repr, DecidableEq

/-- Response of `POST /api/next`. -/
structure GameNextResponse where
  response : String
  turn : Int
  vocabulary_words : List String
  game_over : Bool
  choices : Option (List String)
  deriving Repr, DecidableEq

/-- Response of `POST /api/backtrack`. -/
structure GameBacktrackResponse where
  restored_state : GameState
  message : String
  deriving Repr, DecidableEq

/-- The hook-local state observed by the UI: the optional `GameState`
and the `error` field. -/
structure SessionState where
  gameState : Option GameState
  error : Option String
  deriving Repr, DecidableEq

def MAX_BACKTRACK_COUNT : Int := 2
def MAX_TURNS : Int := 15

/-! ### String primitives

`String.toLower`, `String.toUpper` and `String.trim` of core Lean are
implemented over byte positions and do not reduce in the kernel, so the
JS `toLowerCase()`, `toUpperCase()` and `trim()` (ASCII-relevant
behaviour) are modelled directly over the character list. -/

/-- `toLowerCase()`. -/
def toLowerStr (s : String) : String := ⟨s.data.map Char.toLower⟩

/-- `toUpperCase()`. -/
def toUpperStr (s : String) : String := ⟨s.data.map Char.toUpper⟩

/-- ASCII whitespace (JS `trim()` also strips rarer Unicode space
characters; the claims only involve ASCII input). -/
def isWSChar (c : Char) : Bool := c == ' ' || c == '\t' || c == '\n' || c == '\r'

/-- `trim()`. -/
def trimStr (s : String) : String :=
  ⟨((s.data.dropWhile isWSChar).reverse.dropWhile isWSChar).reverse⟩

/-- The fixed 4-item default choice list used when the backend
returns no `choices` (JS `response.choices || [...]`; note a present
empty array is truthy in JS and is kept as-is, which `Option.getD`
models exactly). -/
def defaultChoices : List String :=
  ["1. Continue exploring ✨",
   "2. Look around carefully 👀",
   "3. Move forward slowly 👣",
   "4. Stay where you are 🛑"]

/-! ## Game session state machine (`useGameState`)

Each operation is modelled as a pure step function.  The network call
(with its retry wrapper) is abstracted as an `Except String r` argument:
`.ok r` is a successful (possibly retried) backend response, `.error e`
a final failure whose humanized message is `e`.  The `Bool` component of
a result records whether the operation reached its network call. -/

/-- The fresh `GameState` built by `startGame` from a successful
`/api/start` response (`newGameState` in the source). -/
def startGameSuccess (genre : String) (resp : GameStartResponse) (now : Int) :
    GameState :=
  { session_id := resp.session_id
    turn := resp.turn
    genre := genre
    history := [{ turn := resp.turn
                  user_input := ""
                  ai_response := resp.story_intro
                  vocabulary_words := []
                  timestamp := now }]
    vocabulary_learned := []
    game_over := false
    backtrack_count := 0
    current_choices := some (resp.choices.getD defaultChoices) }

/-- `startGame` step: no precondition guard in the source; on success the
state is replaced by the fresh `GameState` and `error` is cleared, on
failure `error` is set and `gameState` is untouched. -/
def startGame (st : SessionState) (genre : String)
    (resp : Except String GameStartResponse) (now : Int) : SessionState :=
  match resp with
  | .ok r => { gameState := some (startGameSuccess genre r now), error := none }
  | .error e => { st with error := some e }

/-- The updated `GameState` built by `sendInput` from a successful
`/api/next` response (`updatedGameState` in the source). -/
def sendInputSuccess (g : GameState) (trimmedInput : String)
    (resp : GameNextResponse) (now : Int) : GameState :=
  { g with
    turn := resp.turn
    history := g.history ++ [{ turn := resp.turn
                               user_input := trimmedInput
                               ai_response := resp.response
                               vocabulary_words := resp.vocabulary_words
                               timestamp := now }]
    vocabulary_learned := g.vocabulary_learned ++
      resp.vocabulary_words.filter (fun w => !(g.vocabulary_learned.contains w))
    game_over := resp.game_over || MAX_TURNS ≤ resp.turn
    current_choices := some (resp.choices.getD defaultChoices) }

/-- `sendInput` step.  Guards (in source order): no active or finished
game, turn cap reached, input trims to empty — each sets `error` and
returns before the network call (second component `false`). -/
def sendInput (st : SessionState) (input : String)
    (resp : Except String GameNextResponse) (now : Int) :
    SessionState × Bool :=
  match st.gameState with
  | none => ({ st with error := some "No active game session." }, false)
  | some g =>
    if g.game_over then
      ({ st with error := some "No active game session." }, false)
    else if MAX_TURNS ≤ g.turn then
      ({ st with error := some "Game has reached maximum turns." }, false)
    else if trimStr input = "" then
      ({ st with error := some "Please enter a valid response." }, false)
    else
      match resp with
      | .ok r =>
        ({ gameState := some (sendInputSuccess g (trimStr input) r now)
           error := none }, true)
      | .error e => ({ st with error := some e }, true)

/-- `backtrackToTurn` step.  Guards (in source order): no active game,
backtrack quota exhausted, target not strictly in the past — each sets
`error` and returns before the network call.  On success the whole
`GameState` is replaced by the restored state except that
`backtrack_count` is the client-tracked previous count plus one. -/
def backtrackToTurn (st : SessionState) (targetTurn : Int)
    (resp : Except String GameBacktrackResponse) :
    SessionState × Bool :=
  match st.gameState with
  | none => ({ st with error := some "No active game session." }, false)
  | some g =>
    if MAX_BACKTRACK_COUNT ≤ g.backtrack_count then
      ({ st with
          error := some "You have used all available backtracks for this game." },
        false)
    else if g.turn ≤ targetTurn ∨ targetTurn < 1 then
      ({ st with error := some "Invalid turn number for backtracking." }, false)
    else
      match resp with
      | .ok r =>
        ({ gameState :=
            some { r.restored_state with backtrack_count := g.backtrack_count + 1 }
           error := none }, true)
      | .error e => ({ st with error := some e }, true)

/-! ## Retry wrapper (`withRetry` in the API utility module)

`for (let i = 0; i < maxRetries; i++) { try { return await apiCall(); }
catch { if (i === maxRetries - 1) throw error;
await sleep(delay * 2 ** i); } } throw new Error('Max retries exceeded');`

The `i`-th attempt's outcome is supplied as `ops i`; the model records
the returned/thrown result, the number of attempts made, and the list of
back-off delays awaited between consecutive attempts. -/

/-- Final outcome of `withRetry`: a value, the error re-thrown from the
last attempt, or the generic `Max retries exceeded` error thrown when
the loop body never runs. -/
inductive RetryOutcome (ε : Type) (α : Type) where
  | ok (a : α)
  | err (e : ε)
  | exhausted
  deriving Repr, DecidableEq

/-- Observable trace of a `withRetry` run. -/
structure RetryTrace (ε : Type) (α : Type) where
  result : RetryOutcome ε α
  attempts : Nat
  delays : List Nat
  deriving Repr, DecidableEq

/-- The retry loop; `fuel` counts the remaining iterations
(`maxRetries - i` in the source) and `i` is the current attempt index.
`fuel = 1` is the `i === maxRetries - 1` case, which re-throws. -/
def retryLoop (ops : Nat → Except ε α) (delay : Nat) (i : Nat) :
    Nat → RetryTrace ε α
  | 0 => ⟨.exhausted, 0, []⟩
  | fuel + 1 =>
    match ops i with
    | .ok a => ⟨.ok a, 1, []⟩
    | .error e =>
      match fuel with
      | 0 => ⟨.err e, 1, []⟩
      | fuel' + 1 =>
        let t := retryLoop ops delay (i + 1) (fuel' + 1)
        ⟨t.result, t.attempts + 1, delay * 2 ^ i :: t.delays⟩

/-- `withRetry(apiCall, maxRetries, delay)`.  `maxRetries` is an `Int`
because the JS loop simply never runs for a non-positive bound. -/
def withRetry (ops : Nat → Except ε α) (maxRetries : Int) (delay : Nat) :
    RetryTrace ε α :=
  retryLoop ops delay 0 maxRetries.toNat

/-! ## Local persistence (`loadGameState` in the localStorage module)

`JSON.parse` is kept abstract (`parse`); the stored slot is
`Option String` (`localStorage.getItem` returns `null` or a string).
The surrounding `try/catch` is modelled by the function being total and
mapping a parse failure to `none`. -/

/-- A JSON value, as produced by `JSON.parse`. -/
inductive Json where
  | null
  | bool (b : Bool)
  | num (n : Int)
  | str (s : String)
  | arr (elems : List Json)
  | obj (fields : List (String × Json))

/-- JS property access `v.k`: `none` models `undefined` (missing field
or non-object receiver). -/
def Json.getField : Json → String → Option Json
  | .obj fields, k => fields.lookup k
  | _, _ => none

/-- JS truthiness, for the `parsedState &&` guard. -/
def Json.truthy : Json → Bool
  | .null => false
  | .bool b => b
  | .num n => n != 0
  | .str s => s != ""
  | .arr _ => true
  | .obj _ => true

/-- `typeof v === 'string'` on a property-access result. -/
def jsonIsStr : Option Json → Bool
  | some (.str _) => true
  | _ => false

/-- `typeof v === 'number'` on a property-access result. -/
def jsonIsNum : Option Json → Bool
  | some (.num _) => true
  | _ => false

/-- `Array.isArray(v)` on a property-access result. -/
def jsonIsArr : Option Json → Bool
  | some (.arr _) => true
  | _ => false

/-- The shape validation of `loadGameState`: `parsedState &&
typeof parsedState.session_id === 'string' && typeof parsedState.turn
=== 'number' && Array.isArray(parsedState.history)`. -/
def validGameStateShape (j : Json) : Bool :=
  j.truthy && jsonIsStr (j.getField "session_id") &&
    jsonIsNum (j.getField "turn") && jsonIsArr (j.getField "history")

/-- `loadGameState()`.  An absent or empty stored string is falsy
(`if (!serializedState) return null`); a parse exception is caught and
yields `none`; a shape-validation failure yields `none`. -/
def loadGameState (stored : Option String)
    (parse : String → Except String Json) : Option Json :=
  match stored with
  | none => none
  | some s =>
    if s = "" then none
    else
      match parse s with
      | .error _ => none
      | .ok j => if validGameStateShape j then some j else none

/-! ## Vocabulary progress tracking (`VocabularyManager`) -/

/-- `VocabularyProgress` record of the vocabulary module. -/
structure VocabularyProgress where
  words_learned : List String
  definitions_viewed : List String
  words_mastered : List String
  total_games_played : Int
  last_played : Int
  current_streak : Int
  best_streak : Int
  deriving Repr, DecidableEq

/-- Private `updateStreak()`: increments `current_streak` and raises
`best_streak` to it when exceeded. -/
def updateStreak (p : VocabularyProgress) : VocabularyProgress :=
  let p1 := { p with current_streak := p.current_streak + 1 }
  if p1.best_streak < p1.current_streak then
    { p1 with best_streak := p1.current_streak }
  else p1

/-- `addLearnedWord(word)`: pushes `word.toLowerCase()` and updates the
streak only when the lowercased word is not already present. -/
def addLearnedWord (p : VocabularyProgress) (word : String) :
    VocabularyProgress :=
  if p.words_learned.contains (toLowerStr word) then p
  else updateStreak
    { p with words_learned := p.words_learned ++ [toLowerStr word] }

/-! ## Vocabulary highlighting (`highlightVocabularyWords`)

The JS code uses `text.replace(new RegExp("\\b" ++ word ++ "\\b", "gi"),
fn)`: every non-overlapping, whole-word, case-insensitive occurrence of
`word` (all dictionary words are pure ASCII letters) is replaced by
`fn(match)`, scanning the original text left to right; replacements are
not re-scanned within one pass.  `\b` holds between a `\w` character
(`[A-Za-z0-9_]`) and a non-`\w` character or the text edge.  Strings
are processed as `List Char`. -/

/-- JS `\w` character class. -/
def wordChar (c : Char) : Bool :=
  ('a' ≤ c && c ≤ 'z') || ('A' ≤ c && c ≤ 'Z') || ('0' ≤ c && c ≤ '9') || c == '_'

/-- Does `w` match the head of `s` case-insensitively (regex `i` flag)? -/
def startsWithCI : List Char → List Char → Bool
  | [], _ => true
  | _ :: _, [] => false
  | p :: ps, c :: cs => (p.toLower == c.toLower) && startsWithCI ps cs

/-- Does `w` match the head of `s` literally? -/
def startsWithLit : List Char → List Char → Bool
  | [], _ => true
  | _ :: _, [] => false
  | p :: ps, c :: cs => (p == c) && startsWithLit ps cs

/-- Is the first character (if any) a `\w` character? -/
def wordCharAt : List Char → Bool
  | [] => false
  | c :: _ => wordChar c

/-- One `gi`-global whole-word replacement pass.  `prevW` records
whether the previous character of the original text is a `\w` character
(for the leading `\b`); the trailing `\b` requires the character after
the match to be a non-`\w` character or the end.  `f` receives the
matched text with its original casing.  The recursion is structural on
`fuel`; every step consumes at least one character (a match consumes
`w.length ≥ 1`), so with `fuel = s.length` (see `replaceWordAux`) the
scan always reaches the end of the text before the fuel runs out. -/
def replaceWordFuel (w : List Char) (f : List Char → List Char) :
    Nat → Bool → List Char → List Char
  | 0, _, s => s
  | fuel + 1, prevW, s =>
    match s with
    | [] => []
    | c :: cs =>
      if w ≠ [] ∧ prevW = false ∧ startsWithCI w (c :: cs) = true ∧
          wordCharAt (List.drop w.length (c :: cs)) = false then
        f (List.take w.length (c :: cs)) ++
          replaceWordFuel w f fuel true (List.drop w.length (c :: cs))
      else
        c :: replaceWordFuel w f fuel (wordChar c) cs

/-- One whole-word replacement pass over the full text. -/
def replaceWordAux (w : List Char) (f : List Char → List Char)
    (prevW : Bool) (s : List Char) : List Char :=
  replaceWordFuel w f s.length prevW s

/-- Scanner with the same structure as `replaceWordAux`: does the text
contain any whole-word case-insensitive occurrence of `w`? -/
def hasWordCI (w : List Char) : Bool → List Char → Bool
  | _, [] => false
  | prevW, c :: cs =>
    if w ≠ [] ∧ prevW = false ∧ startsWithCI w (c :: cs) = true ∧
        wordCharAt (List.drop w.length (c :: cs)) = false then true
    else hasWordCI w (wordChar c) cs

/-- One `g`-global literal substring replacement pass (the placeholder
restore step uses patterns `__VOCAB_<WORD>__` with no regex
metacharacters and a constant replacement).  Fuel as in
`replaceWordFuel`. -/
def replaceSubFuel (pat repl : List Char) : Nat → List Char → List Char
  | 0, s => s
  | fuel + 1, s =>
    match s with
    | [] => []
    | c :: cs =>
      if pat ≠ [] ∧ startsWithLit pat (c :: cs) = true then
        repl ++ replaceSubFuel pat repl fuel (List.drop pat.length (c :: cs))
      else
        c :: replaceSubFuel pat repl fuel cs

/-- One literal substring replacement pass over the full text. -/
def replaceSubAux (pat repl : List Char) (s : List Char) : List Char :=
  replaceSubFuel pat repl s.length s

/-- Does the text contain `pat` as a literal substring? -/
def containsSub (pat : List Char) : List Char → Bool
  | [] => pat == []
  | c :: cs => startsWithLit pat (c :: cs) || containsSub pat cs

/-- String wrapper for `replaceWordAux` with start-of-text context. -/
def replaceWordCI (w : String) (f : String → String) (s : String) : String :=
  ⟨replaceWordAux w.data (fun m => (f ⟨m⟩).data) false s.data⟩

/-- String wrapper for `replaceSubAux`. -/
def replaceSub (pat repl s : String) : String :=
  ⟨replaceSubAux pat.data repl.data s.data⟩

/-- An entry of `vocabularyDatabase`; only the fields read by
`highlightVocabularyWords` (`word`, `definition`, `example`) are
modelled.  `example` is a Lean keyword, hence `exampleText`. -/
structure VocabEntry where
  word : String
  definition : String
  exampleText : Option String
  deriving Repr, DecidableEq

/-- The fixed dictionary, in JS object-insertion order (`Object.keys`
enumerates string keys in insertion order). -/
def vocabularyDatabase : List (String × VocabEntry) :=
  [("adventure",
    ⟨"adventure", "An exciting or dangerous experience or journey",
     some "Going on an adventure through the forest was thrilling!"⟩),
   ("mysterious",
    ⟨"mysterious", "Strange, unknown, or difficult to understand",
     some "The mysterious door had no handle or keyhole."⟩),
   ("courage",
    ⟨"courage", "The ability to do something brave or difficult",
     some "It took courage to enter the dark cave."⟩),
   ("ancient",
    ⟨"ancient", "Very old, from long ago in history",
     some "The ancient castle was built hundreds of years ago."⟩),
   ("discover",
    ⟨"discover", "To find something for the first time",
     some "We might discover treasure in the hidden room."⟩),
   ("enchanted",
    ⟨"enchanted", "Having magical powers or under a magic spell",
     some "The enchanted sword glowed with blue light."⟩),
   ("riddle",
    ⟨"riddle", "A puzzle or question that needs clever thinking to solve",
     some "The sphinx asked a difficult riddle."⟩),
   ("treasure",
    ⟨"treasure", "Valuable things like gold, jewels, or precious objects",
     some "The pirates buried their treasure on the island."⟩),
   ("wisdom",
    ⟨"wisdom", "Knowledge and good judgment gained from experience",
     some "The old wizard shared his wisdom with young adventurers."⟩),
   ("labyrinth",
    ⟨"labyrinth", "A complicated network of paths; a maze",
     some "Getting lost in the labyrinth was scary but exciting."⟩)]

/-- `Object.keys(vocabularyDatabase)`. -/
def dbKeys : List String := vocabularyDatabase.map Prod.fst

/-- `vocabularyDatabase[w]` (keys are lowercase). -/
def dbLookup (w : String) : Option VocabEntry := vocabularyDatabase.lookup w

/-- The placeholder token `__VOCAB_<WORD>__`. -/
def placeholderOf (w : String) : String := "__VOCAB_" ++ toUpperStr w ++ "__"

/-- Stable sort of the dictionary keys by descending length
(`sort((a, b) => b.length - a.length)`; JS `Array.prototype.sort` is
stable, so equal lengths keep insertion order). -/
def insertByLenDesc (x : String) : List String → List String
  | [] => [x]
  | y :: ys =>
    if y.length ≤ x.length then x :: y :: ys else y :: insertByLenDesc x ys

/-- Stable insertion sort by descending string length. -/
def sortByLenDesc (l : List String) : List String := l.foldr insertByLenDesc []

/-- `createSafeTooltip(match)` inside `highlightVocabularyWords`: builds
the wrapping markup, with every dictionary word in the tooltip's
definition/example text replaced by its placeholder (the vocabulary
manager side channel does not affect the returned text and is omitted).
-/
def createSafeTooltip (word : String) : String :=
  match dbLookup (toLowerStr word) with
  | none => word
  | some info =>
    let safeDefinition := dbKeys.foldl
      (fun acc vw => replaceWordCI vw (fun _ => placeholderOf vw) acc)
      info.definition
    let safeExample := dbKeys.foldl
      (fun acc vw => replaceWordCI vw (fun _ => placeholderOf vw) acc)
      (info.exampleText.getD "")
    "<span class=\"vocabulary-word\" data-word=\"" ++ word ++ "\">\n      " ++
      word ++ "\n      <span class=\"vocabulary-tooltip\">\n        <strong>" ++
      info.word ++ "</strong><br>\n        " ++ safeDefinition ++
      "\n        " ++
      (if safeExample ≠ "" then "<br><em>Example: " ++ safeExample ++ "</em>"
       else "") ++
      "\n      </span>\n    </span>"

/-- `highlightVocabularyWords(text)`: wrap matches longest-word-first,
then restore the placeholder tokens to their literal words. -/
def highlightVocabularyWords (text : String) : String :=
  let sortedWords := sortByLenDesc dbKeys
  let afterWrap := sortedWords.foldl
    (fun acc w => replaceWordCI w (fun m => createSafeTooltip m) acc) text
  dbKeys.foldl (fun acc w => replaceSub (placeholderOf w) w acc) afterWrap

/-! ## Checkers used to state the highlighting claims -/

/-- Tag stripping: drop every `<...>` region, keep the rest. -/
def stripTagsAux : Bool → List Char → List Char
  | _, [] => []
  | false, c :: cs =>
    if c = '<' then stripTagsAux true cs else c :: stripTagsAux false cs
  | true, c :: cs =>
    if c = '>' then stripTagsAux false cs else stripTagsAux true cs

/-- Strip all HTML tags from a string. -/
def stripTags (s : String) : String := ⟨stripTagsAux false s.data⟩

/-- Opening marker of a vocabulary-word span. -/
def vwOpenMarker : List Char := "<span class=\"vocabulary-word\"".data

/-- A span-closing tag. -/
def spanCloseMarker : List Char := "</span>".data

/-- Detects nested vocabulary-word markup: a second vocabulary-word
opening marker with no `</span>` in between means the second span opens
textually inside the first, still unclosed, one. -/
def nestedVWAux : Bool → List Char → Bool
  | _, [] => false
  | openSeen, c :: cs =>
    if startsWithLit vwOpenMarker (c :: cs) then
      if openSeen then true else nestedVWAux true cs
    else if startsWithLit spanCloseMarker (c :: cs) then
      nestedVWAux false cs
    else
      nestedVWAux openSeen cs

/-- Does the markup contain a vocabulary-word span nested inside
another vocabulary-word span? -/
def hasNestedVW (s : String) : Bool := nestedVWAux false s.data

/-- No whole-word occurrence of any dictionary word and no placeholder
token: on such text every pass of `highlightVocabularyWords` is the
identity. -/
def noVocabText (t : String) : Bool :=
  dbKeys.all (fun w => !hasWordCI w.data false t.data) &&
    dbKeys.all (fun w => !containsSub (placeholderOf w).data t.data)

/-- Text without `<`, on which `stripTags` is the identity. -/
def tagFree (t : String) : Bool := !(t.data.contains '<')

/-! ## Reachability and the session invariant -/

/-- The spec's `GameState` invariant: `history[0].turn == 1` and
`turn == history[history.length-1].turn` (both vacuously false on an
empty history, which the invariant also excludes). -/
def checkInvariant (g : GameState) : Bool :=
  (match g.history.head? with
   | some t => t.turn == 1
   | none => false) &&
  (match g.history.getLast? with
   | some t => g.turn == t.turn
   | none => false)

/-- States reachable by sequences of successful `startGame`, `sendInput`
and `backtrackToTurn` transitions over arbitrary backend responses, as
claim C1 quantifies them.  A transition is successful when its guards
pass (second component `true`) and the response is `.ok`. -/
inductive Reachable : SessionState → Prop where
  | init : Reachable ⟨none, none⟩
  | start (st : SessionState) (genre : String) (resp : GameStartResponse)
      (now : Int) : Reachable st →
      Reachable (startGame st genre (.ok resp) now)
  | send (st : SessionState) (input : String) (resp : GameNextResponse)
      (now : Int) : Reachable st →
      (sendInput st input (.ok resp) now).2 = true →
      Reachable (sendInput st input (.ok resp) now).1
  | backtrack (st : SessionState) (t : Int) (resp : GameBacktrackResponse) :
      Reachable st → (backtrackToTurn st t (.ok resp)).2 = true →
      Reachable (backtrackToTurn st t (.ok resp)).1

/-- Reachability under well-formed backend responses: a start response
carries `turn = 1` and a backtrack response restores a state that itself
satisfies the invariant.  (The client trusts both, so the invariant of
claim C1 only holds under these backend-contract assumptions.) -/
inductive ReachableWF : SessionState → Prop where
  | init : ReachableWF ⟨none, none⟩
  | start (st : SessionState) (genre : String) (resp : GameStartResponse)
      (now : Int) : ReachableWF st → resp.turn = 1 →
      ReachableWF (startGame st genre (.ok resp) now)
  | send (st : SessionState) (input : String) (resp : GameNextResponse)
      (now : Int) : ReachableWF st →
      (sendInput st input (.ok resp) now).2 = true →
      ReachableWF (sendInput st input (.ok resp) now).1
  | backtrack (st : SessionState) (t : Int) (resp : GameBacktrackResponse) :
      ReachableWF st → (backtrackToTurn st t (.ok resp)).2 = true →
      checkInvariant resp.restored_state = true →
      ReachableWF (backtrackToTurn st t (.ok resp)).1

/-! ## Concrete sample values used by witnesses and counterexamples -/

/-- A start response whose `turn` is not 1; the client copies it
verbatim into the fresh state. -/
def badStartResponse : GameStartResponse := ⟨"sess", "intro", 2, none⟩

/-- The state produced by a successful start over `badStartResponse`. -/
def badStartState : SessionState :=
  startGame ⟨none, none⟩ "forest" (.ok badStartResponse) 0

/-- A well-formed start response (`turn = 1`). -/
def goodStartResponse : GameStartResponse := ⟨"sess", "intro", 1, none⟩

/-- Introductory turn of `sampleState`. -/
def sampleTurn : GameTurn := ⟨1, "", "intro", [], 0⟩

/-- An in-progress sample state at turn 3 with no backtracks used. -/
def sampleState : GameState :=
  ⟨"sess", 3, "forest", [sampleTurn], [], false, 0, none⟩

/-- A sample state with the backtrack quota exhausted. -/
def exhaustedState : GameState :=
  ⟨"sess", 3, "forest", [sampleTurn], [], false, 2, none⟩

/-- A sample backend-restored state for backtracking. -/
def sampleRestored : GameState :=
  ⟨"sess", 1, "forest", [sampleTurn], [], false, 0, none⟩

/-- A sample `/api/next` response at the turn cap with the backend's
own `game_over` flag left false. -/
def capResponse : GameNextResponse := ⟨"the end", 15, [], false, none⟩

/-- A progress state that has already learned "magic". -/
def magicProgress : VocabularyProgress := ⟨["magic"], [], [], 0, 0, 0, 0⟩

/-- The empty initial progress (with zero counters). -/
def emptyProgress : VocabularyProgress := ⟨[], [], [], 0, 0, 0, 0⟩

/-! # Theorems -/

/-! ## Retry wrapper -/

/-- On permanently failing operations the retry loop makes one attempt
per unit of fuel, sleeps `delay * 2 ^ i` after each non-final attempt
`i`, and ends with the last attempt's error. -/
theorem retryLoop_fail {ε α : Type} (errs : Nat → ε) (d : Nat) :
    ∀ (m i : Nat),
      retryLoop (fun j => (.error (errs j) : Except ε α)) d i (m + 1) =
        ⟨.err (errs (i + m)), m + 1,
          (List.range m).map (fun j => d * 2 ^ (i + j))⟩
  | 0, i => by simp [retryLoop]
  | m + 1, i => by
    rw [retryLoop]
    dsimp only
    rw [retryLoop_fail errs d m (i + 1)]
    have he : (i + 1) + m = i + (m + 1) := by omega
    have hdelays :
        (List.range (m + 1)).map (fun j => d * 2 ^ (i + j)) =
          d * 2 ^ i :: (List.range m).map (fun j => d * 2 ^ ((i + 1) + j)) := by
      rw [List.range_succ_eq_map, List.map_cons, List.map_map]
      refine congrArg₂ _ (by rw [Nat.add_zero]) (List.map_congr_left ?_)
      intro j _
      simp only [Function.comp_apply]
      congr 1
      congr 1
      omega
    rw [hdelays, he]

/-- C6: for an operation that fails on every attempt, `withRetry` with
`maxRetries = n ≥ 1` and base delay `d` invokes the operation exactly
`n` times, waits `d * 2 ^ i` between attempt `i` and attempt `i + 1`
(exponential backoff, every error retried identically), and finally
rejects with the error thrown by the last attempt. -/
theorem C6_withRetry_allFail {ε α : Type} (errs : Nat → ε) (n : Int)
    (d : Nat) (h : 1 ≤ n) :
    withRetry (fun j => (.error (errs j) : Except ε α)) n d =
      ⟨.err (errs (n.toNat - 1)), n.toNat,
        (List.range (n.toNat - 1)).map (fun j => d * 2 ^ j)⟩ := by
  obtain ⟨m, hm⟩ : ∃ m, n.toNat = m + 1 := ⟨n.toNat - 1, by omega⟩
  rw [withRetry, hm, retryLoop_fail]
  simp [hm]

/-- Witness for C6 at the defaults (`n = 3`, `d = 1000`): exactly 3
attempts, back-off delays 1000ms and 2000ms, final error surfaced. -/
theorem C6_withRetry_allFail_witness :
    withRetry (fun _ => (.error "network failure" : Except String Unit))
        3 1000 =
      ⟨.err "network failure", 3, [1000, 2000]⟩ := by
  rw [C6_withRetry_allFail (fun _ => "network failure") 3 1000 (by decide)]
  decide

/-- C10: with `maxRetries ≤ 0` the loop body never runs: the operation
is never invoked (0 attempts, no delays) and `withRetry` rejects with
the generic `Max retries exceeded` error instead of any operation
error. -/
theorem C10_withRetry_nonpos {ε α : Type} (ops : Nat → Except ε α)
    (n : Int) (d : Nat) (h : n ≤ 0) :
    withRetry ops n d = ⟨.exhausted, 0, []⟩ := by
  rw [withRetry]
  have hz : n.toNat = 0 := by omega
  rw [hz]
  rfl

/-- Witness for C10 at `maxRetries = -2`. -/
theorem C10_withRetry_nonpos_witness :
    withRetry (fun _ => (.error "boom" : Except String Unit)) (-2) 500 =
      ⟨.exhausted, 0, []⟩ :=
  C10_withRetry_nonpos _ (-2) 500 (by decide)

/-! ## Local persistence -/

/-- C8: `loadGameState()` returns the absent sentinel (and, being a
total function, never throws) whenever the stored string fails to
parse, or parses to a value without a string `session_id`, a numeric
`turn`, or an array `history`; an absent slot yields the same sentinel,
so callers cannot distinguish corrupted state from absent state. -/
theorem C8_loadGameState_corrupt (s : String)
    (parse : String → Except String Json)
    (h : (∃ e, parse s = .error e) ∨
         (∃ j, parse s = .ok j ∧
            (jsonIsStr (j.getField "session_id") = false ∨
             jsonIsNum (j.getField "turn") = false ∨
             jsonIsArr (j.getField "history") = false))) :
    loadGameState (some s) parse = none ∧ loadGameState none parse = none := by
  refine ⟨?_, rfl⟩
  rw [loadGameState]
  by_cases hs : s = ""
  · rw [if_pos hs]
  · rw [if_neg hs]
    rcases h with ⟨e, he⟩ | ⟨j, hj, hbad⟩
    · rw [he]
    · rw [hj]
      have hv : validGameStateShape j = false := by
        rw [validGameStateShape]
        rcases hbad with hb | hb | hb <;> simp [hb]
      simp [hv]

/-- Witness for C8: malformed JSON in the stored slot. -/
theorem C8_loadGameState_corrupt_witness :
    loadGameState (some "not valid json")
        (fun _ => .error "SyntaxError: Unexpected token") = none ∧
    loadGameState none (fun _ => .error "SyntaxError: Unexpected token") =
      none :=
  C8_loadGameState_corrupt "not valid json" _ (Or.inl ⟨_, rfl⟩)

/-! ## Vocabulary progress tracking -/

/-- C9 counterexample: from a state that has already learned `"magic"`,
`addLearnedWord("Magic")` then `addLearnedWord("magic")` leaves
`current_streak` untouched, not incremented by one as the claim states
for every starting state. -/
theorem C9_counterexample :
    (addLearnedWord (addLearnedWord magicProgress "Magic") "magic").current_streak
      ≠ magicProgress.current_streak + 1 := by decide

/-- The streak update in both of its branches. -/
theorem updateStreak_eq (p : VocabularyProgress) :
    updateStreak p =
      { p with current_streak := p.current_streak + 1
               best_streak := max p.best_streak (p.current_streak + 1) } := by
  rw [updateStreak]
  dsimp only
  split
  · next hlt =>
    have : max p.best_streak (p.current_streak + 1) = p.current_streak + 1 := by
      omega
    rw [this]
  · next hge =>
    have : max p.best_streak (p.current_streak + 1) = p.best_streak := by
      omega
    rw [this]

/-- C9 (amended): from any state in which `"magic"` has not yet been
learned, `addLearnedWord("Magic")` then `addLearnedWord("magic")` adds
exactly one case-normalized entry `"magic"`, increments
`current_streak` exactly once (on the first-time insertion only), and
updates `best_streak` as the running maximum of `current_streak`. -/
theorem C9_addLearnedWord (p : VocabularyProgress)
    (h : p.words_learned.contains "magic" = false) :
    (addLearnedWord (addLearnedWord p "Magic") "magic").words_learned =
      p.words_learned ++ ["magic"] ∧
    (addLearnedWord (addLearnedWord p "Magic") "magic").words_learned.count
      "magic" = 1 ∧
    (addLearnedWord (addLearnedWord p "Magic") "magic").current_streak =
      p.current_streak + 1 ∧
    (addLearnedWord (addLearnedWord p "Magic") "magic").best_streak =
      max p.best_streak (p.current_streak + 1) := by
  have hlow1 : toLowerStr "Magic" = "magic" := by decide
  have hlow2 : toLowerStr "magic" = "magic" := by decide
  have h1 : addLearnedWord p "Magic" =
      { p with words_learned := p.words_learned ++ ["magic"]
               current_streak := p.current_streak + 1
               best_streak := max p.best_streak (p.current_streak + 1) } := by
    rw [addLearnedWord, hlow1, h]
    rw [if_neg (by simp)]
    rw [updateStreak_eq]
  have h2 : addLearnedWord (addLearnedWord p "Magic") "magic" =
      addLearnedWord p "Magic" := by
    conv_lhs => rw [addLearnedWord]
    rw [hlow2, h1]
    rw [if_pos (by simp [List.contains])]
  rw [h2, h1]
  refine ⟨rfl, ?_, rfl, rfl⟩
  have hmem : "magic" ∉ p.words_learned := by
    simp only [List.contains, List.elem_eq_mem, decide_eq_false_iff_not] at h
    exact h
  simp [List.count_append, List.count_eq_zero.mpr hmem]

/-- Witness for C9 from the empty initial progress. -/
theorem C9_addLearnedWord_witness :
    (addLearnedWord (addLearnedWord emptyProgress "Magic") "magic").words_learned
      = emptyProgress.words_learned ++ ["magic"] ∧
    (addLearnedWord (addLearnedWord emptyProgress "Magic") "magic").words_learned.count
      "magic" = 1 ∧
    (addLearnedWord (addLearnedWord emptyProgress "Magic") "magic").current_streak
      = emptyProgress.current_streak + 1 ∧
    (addLearnedWord (addLearnedWord emptyProgress "Magic") "magic").best_streak
      = max emptyProgress.best_streak (emptyProgress.current_streak + 1) :=
  C9_addLearnedWord emptyProgress (by decide)

/-! ## Game session state machine -/

/-- C3: with an active game, quota unspent and `1 ≤ t < turn`, a
successful `backtrackToTurn(t)` replaces the whole `GameState` by the
backend's restored state except that `backtrack_count` is the
client-tracked previous count plus one; once
`backtrack_count = MAX_BACKTRACK_COUNT` it sets `error` without any
network call and leaves the `GameState` unchanged. -/
theorem C3_backtrackToTurn (st : SessionState) (g : GameState) (t : Int)
    (r : GameBacktrackResponse) (resp : Except String GameBacktrackResponse)
    (hg : st.gameState = some g) :
    (g.backtrack_count < MAX_BACKTRACK_COUNT → 1 ≤ t → t < g.turn →
      backtrackToTurn st t (.ok r) =
        (⟨some { r.restored_state with backtrack_count := g.backtrack_count + 1 },
          none⟩, true)) ∧
    (g.backtrack_count = MAX_BACKTRACK_COUNT →
      backtrackToTurn st t resp =
        ({ st with
            error := some "You have used all available backtracks for this game." },
         false)) := by
  constructor
  · intro hq h1 h2
    simp only [backtrackToTurn, hg]
    rw [if_neg (by omega), if_neg (by omega)]
  · intro hq
    simp only [backtrackToTurn, hg]
    rw [if_pos (by omega)]

/-- Witness for C3: both conjuncts at a concrete state (quota unspent
at turn 3, and the same target against an exhausted twin state). -/
theorem C3_backtrackToTurn_witness :
    (backtrackToTurn ⟨some sampleState, none⟩ 1 (.ok ⟨sampleRestored, "ok"⟩) =
      (⟨some { sampleRestored with backtrack_count := sampleState.backtrack_count + 1 },
        none⟩, true)) ∧
    (backtrackToTurn ⟨some exhaustedState, none⟩ 1 (.ok ⟨sampleRestored, "ok"⟩) =
      (⟨some exhaustedState,
         some "You have used all available backtracks for this game."⟩,
       false)) :=
  ⟨(C3_backtrackToTurn ⟨some sampleState, none⟩ sampleState 1
      ⟨sampleRestored, "ok"⟩ (.ok ⟨sampleRestored, "ok"⟩) rfl).1
      (by decide) (by decide) (by decide),
   (C3_backtrackToTurn ⟨some exhaustedState, none⟩ exhaustedState 1
      ⟨sampleRestored, "ok"⟩ (.ok ⟨sampleRestored, "ok"⟩) rfl).2 (by decide)⟩

/-- C4: on the success path of `sendInput`, the updated state's
`game_over` is true exactly when the backend response's `game_over`
flag is set or the response's turn number is at least `MAX_TURNS` —
in particular it becomes true at the turn cap even when the backend
never set its own flag. -/
theorem C4_sendInput_gameOver (st : SessionState) (g : GameState)
    (input : String) (r : GameNextResponse) (now : Int)
    (hg : st.gameState = some g) (hover : g.game_over = false)
    (hturn : g.turn < MAX_TURNS) (htrim : trimStr input ≠ "") :
    sendInput st input (.ok r) now =
      (⟨some (sendInputSuccess g (trimStr input) r now), none⟩, true) ∧
    ((sendInputSuccess g (trimStr input) r now).game_over = true ↔
      (r.game_over = true ∨ MAX_TURNS ≤ r.turn)) := by
  constructor
  · simp only [sendInput, hg]
    rw [if_neg (by simp [hover]), if_neg (by omega), if_neg htrim]
  · rw [sendInputSuccess]
    simp [Bool.or_eq_true, decide_eq_true_eq]

/-- Witness for C4: backend leaves `game_over = false` but reports
turn 15 = `MAX_TURNS`; the client still ends the game. -/
theorem C4_sendInput_gameOver_witness :
    sendInput ⟨some sampleState, none⟩ " onward " (.ok capResponse) 7 =
      (⟨some (sendInputSuccess sampleState (trimStr " onward ") capResponse 7),
        none⟩, true) ∧
    ((sendInputSuccess sampleState (trimStr " onward ") capResponse 7).game_over
        = true ↔ (capResponse.game_over = true ∨ MAX_TURNS ≤ capResponse.turn)) :=
  C4_sendInput_gameOver ⟨some sampleState, none⟩ sampleState " onward "
    capResponse 7 rfl (by decide) (by decide) (by decide)

/-- C5: `sendInput` is a no-op apart from setting `error` — the
`GameState` is unchanged and the network call is never reached —
whenever no game is active, the game is over, the turn cap is reached,
or the input trims to the empty string. -/
theorem C5_sendInput_noop (st : SessionState) (input : String)
    (resp : Except String GameNextResponse) (now : Int)
    (h : st.gameState = none ∨
      (∃ g, st.gameState = some g ∧
        (g.game_over = true ∨ MAX_TURNS ≤ g.turn)) ∨
      trimStr input = "") :
    (sendInput st input resp now).1.gameState = st.gameState ∧
    (sendInput st input resp now).2 = false ∧
    (sendInput st input resp now).1.error.isSome = true := by
  cases hgs : st.gameState with
  | none => simp [sendInput, hgs]
  | some g =>
    by_cases hover : g.game_over = true
    · simp [sendInput, hgs, hover]
    · by_cases hturn : MAX_TURNS ≤ g.turn
      · simp [sendInput, hgs, hover, hturn]
      · by_cases htrim : trimStr input = ""
        · simp [sendInput, hgs, hover, hturn, htrim]
        · exfalso
          rcases h with h | ⟨g', hg', hcond⟩ | h
          · rw [hgs] at h; exact Option.noConfusion h
          · rw [hgs] at hg'
            injection hg' with e
            subst e
            rcases hcond with hc | hc
            · exact hover hc
            · exact hturn hc
          · exact htrim h

/-- Witness for C5: no active game. -/
theorem C5_sendInput_noop_witness :
    (sendInput ⟨none, none⟩ "go" (.error "net") 0).1.gameState =
      SessionState.gameState ⟨none, none⟩ ∧
    (sendInput ⟨none, none⟩ "go" (.error "net") 0).2 = false ∧
    (sendInput ⟨none, none⟩ "go" (.error "net") 0).1.error.isSome = true :=
  C5_sendInput_noop ⟨none, none⟩ "go" (.error "net") 0 (Or.inl rfl)

/-- C7 counterexample: the client copies the start response's `turn`
verbatim, so a successful response carrying `turn = 2` yields a fresh
state with `turn ≠ 1`, contradicting the claim's quantification over
every successful backend response. -/
theorem C7_counterexample :
    (startGameSuccess "forest" badStartResponse 0).turn ≠ 1 := by decide

/-- C7 (amended): for every valid genre and every successful start
response that carries `turn = 1` (the backend contract), `start`
produces a state with a single-entry history, `turn = 1` and
`game_over = false`. -/
theorem C7_startGame (st : SessionState) (genre : String)
    (resp : GameStartResponse) (now : Int)
    (hgenre : genre ∈ ["forest", "space", "dungeon", "mystery"])
    (hturn : resp.turn = 1) :
    (startGame st genre (.ok resp) now).gameState =
      some (startGameSuccess genre resp now) ∧
    (startGameSuccess genre resp now).history.length = 1 ∧
    (startGameSuccess genre resp now).turn = 1 ∧
    (startGameSuccess genre resp now).game_over = false := by
  refine ⟨rfl, rfl, ?_, rfl⟩
  rw [startGameSuccess]
  exact hturn

/-- Witness for C7 with genre `"forest"` and a `turn = 1` response. -/
theorem C7_startGame_witness :
    (startGame ⟨none, none⟩ "forest" (.ok goodStartResponse) 0).gameState =
      some (startGameSuccess "forest" goodStartResponse 0) ∧
    (startGameSuccess "forest" goodStartResponse 0).history.length = 1 ∧
    (startGameSuccess "forest" goodStartResponse 0).turn = 1 ∧
    (startGameSuccess "forest" goodStartResponse 0).game_over = false :=
  C7_startGame ⟨none, none⟩ "forest" goodStartResponse 0 (by decide) (by decide)

/-- Inversion of a guarded `sendInput` that reached its network call. -/
theorem sendInput_called_inv (st : SessionState) (input : String)
    (r : GameNextResponse) (now : Int)
    (h : (sendInput st input (.ok r) now).2 = true) :
    ∃ g, st.gameState = some g ∧ g.game_over = false ∧
      ¬ MAX_TURNS ≤ g.turn ∧ trimStr input ≠ "" ∧
      (sendInput st input (.ok r) now).1 =
        ⟨some (sendInputSuccess g (trimStr input) r now), none⟩ := by
  cases hgs : st.gameState with
  | none => simp [sendInput, hgs] at h
  | some g =>
    by_cases hover : g.game_over = true
    · simp [sendInput, hgs, hover] at h
    · by_cases hturn : MAX_TURNS ≤ g.turn
      · simp [sendInput, hgs, hover, hturn] at h
      · by_cases htrim : trimStr input = ""
        · simp [sendInput, hgs, hover, hturn, htrim] at h
        · refine ⟨g, rfl, by simpa using hover, hturn, htrim, ?_⟩
          simp [sendInput, hgs, hover, hturn, htrim]

/-- Inversion of a guarded `backtrackToTurn` that reached its network
call. -/
theorem backtrack_called_inv (st : SessionState) (t : Int)
    (r : GameBacktrackResponse)
    (h : (backtrackToTurn st t (.ok r)).2 = true) :
    ∃ g, st.gameState = some g ∧
      ¬ MAX_BACKTRACK_COUNT ≤ g.backtrack_count ∧ ¬ (g.turn ≤ t ∨ t < 1) ∧
      (backtrackToTurn st t (.ok r)).1 =
        ⟨some { r.restored_state with backtrack_count := g.backtrack_count + 1 },
         none⟩ := by
  cases hgs : st.gameState with
  | none => simp [backtrackToTurn, hgs] at h
  | some g =>
    by_cases hq : MAX_BACKTRACK_COUNT ≤ g.backtrack_count
    · simp [backtrackToTurn, hgs, hq] at h
    · by_cases ht : g.turn ≤ t ∨ t < 1
      · simp [backtrackToTurn, hgs, hq, ht] at h
      · refine ⟨g, rfl, hq, ht, ?_⟩
        simp [backtrackToTurn, hgs, hq, ht]

/-- A fresh start state satisfies the invariant when the response
carries `turn = 1`. -/
theorem checkInvariant_start (genre : String) (resp : GameStartResponse)
    (now : Int) (h : resp.turn = 1) :
    checkInvariant (startGameSuccess genre resp now) = true := by
  rw [checkInvariant, startGameSuccess]
  simp [h]

/-- A successful `sendInput` preserves the invariant: the appended turn
record carries the same turn number that becomes the state's `turn`,
and the head of the non-empty history is unchanged. -/
theorem checkInvariant_send (g : GameState) (h : checkInvariant g = true)
    (tr : String) (r : GameNextResponse) (now : Int) :
    checkInvariant (sendInputSuccess g tr r now) = true := by
  rw [checkInvariant] at h
  cases hh : g.history with
  | nil => rw [hh] at h; simp at h
  | cons t ts =>
    rw [hh] at h
    simp only [List.head?_cons, Bool.and_eq_true] at h
    rw [checkInvariant, sendInputSuccess]
    dsimp only
    rw [hh]
    rw [List.getLast?_concat]
    simp only [List.cons_append, List.head?_cons]
    simp [h.1]

/-- The invariant ignores `backtrack_count`, so the client-side
increment after a backtrack preserves the restored state's invariant. -/
theorem checkInvariant_backtrack (r : GameState) (n : Int)
    (h : checkInvariant r = true) :
    checkInvariant { r with backtrack_count := n } = true := h

/-- C1 counterexample: over arbitrary backend responses the invariant
fails — a successful start whose response carries `turn = 2` yields a
reachable state whose `history[0].turn` is 2, not 1. -/
theorem C1_counterexample :
    Reachable badStartState ∧
    badStartState.gameState.map checkInvariant = some false :=
  ⟨Reachable.start ⟨none, none⟩ "forest" badStartResponse 0 Reachable.init,
   by decide⟩

/-- C1 (amended): under well-formed backend responses — start responses
carry `turn = 1` and backtrack responses restore invariant-satisfying
states — every state reachable by successful `startGame`, `sendInput`
and `backtrackToTurn` transitions satisfies
`turn = history[history.length-1].turn` and `history[0].turn = 1`. -/
theorem C1_invariant (st : SessionState) (h : ReachableWF st) :
    ∀ g : GameState, st.gameState = some g → checkInvariant g = true := by
  induction h with
  | init =>
    intro g hg
    exact Option.noConfusion hg
  | start st genre resp now _ hturn _ =>
    intro g hg
    rw [startGame] at hg
    injection hg with e
    rw [← e]
    exact checkInvariant_start genre resp now hturn
  | send st input resp now _ hcalled ih =>
    intro g hg
    obtain ⟨g0, hg0, _, _, _, heq⟩ :=
      sendInput_called_inv st input resp now hcalled
    rw [heq] at hg
    injection hg with e
    rw [← e]
    exact checkInvariant_send g0 (ih g0 hg0) (trimStr input) resp now
  | backtrack st t resp _ hcalled hrestored ih =>
    intro g hg
    obtain ⟨g0, hg0, _, _, heq⟩ := backtrack_called_inv st t resp hcalled
    rw [heq] at hg
    injection hg with e
    rw [← e]
    exact checkInvariant_backtrack resp.restored_state (g0.backtrack_count + 1)
      hrestored

/-- Witness for C1 at the reachable state produced by a well-formed
start. -/
theorem C1_invariant_witness :
    checkInvariant (startGameSuccess "forest" goodStartResponse 0) = true :=
  C1_invariant (startGame ⟨none, none⟩ "forest" (.ok goodStartResponse) 0)
    (ReachableWF.start ⟨none, none⟩ "forest" goodStartResponse 0
      ReachableWF.init rfl)
    (startGameSuccess "forest" goodStartResponse 0) rfl

/-! ## Vocabulary highlighting -/

/-- A whole-word replacement pass is the identity on text with no
whole-word occurrence of the pattern, for any fuel. -/
theorem replaceWordFuel_id (w : List Char) (f : List Char → List Char) :
    ∀ (fuel : Nat) (prevW : Bool) (s : List Char),
      hasWordCI w prevW s = false →
      replaceWordFuel w f fuel prevW s = s
  | 0, _, _, _ => rfl
  | _ + 1, _, [], _ => rfl
  | fuel + 1, prevW, c :: cs, h => by
    rw [hasWordCI] at h
    by_cases hc : (w ≠ [] ∧ prevW = false ∧ startsWithCI w (c :: cs) = true ∧
        wordCharAt (List.drop w.length (c :: cs)) = false)
    · rw [if_pos hc] at h
      exact absurd h (by simp)
    · rw [if_neg hc] at h
      rw [replaceWordFuel]
      rw [if_neg hc]
      rw [replaceWordFuel_id w f fuel (wordChar c) cs h]

/-- String version of `replaceWordFuel_id` at start-of-text context. -/
theorem replaceWordCI_id (w : String) (f : String → String) (s : String)
    (h : hasWordCI w.data false s.data = false) :
    replaceWordCI w f s = s := by
  rw [replaceWordCI, replaceWordAux]
  rw [replaceWordFuel_id _ _ _ _ _ h]

/-- A literal substring replacement pass is the identity on text not
containing the pattern, for any fuel. -/
theorem replaceSubFuel_id (pat repl : List Char) :
    ∀ (fuel : Nat) (s : List Char), containsSub pat s = false →
      replaceSubFuel pat repl fuel s = s
  | 0, _, _ => rfl
  | _ + 1, [], _ => rfl
  | fuel + 1, c :: cs, h => by
    rw [containsSub] at h
    simp only [Bool.or_eq_false_iff] at h
    rw [replaceSubFuel]
    rw [if_neg (by simp [h.1])]
    rw [replaceSubFuel_id pat repl fuel cs h.2]

/-- String version of `replaceSubFuel_id`. -/
theorem replaceSub_id (pat repl s : String)
    (h : containsSub pat.data s.data = false) :
    replaceSub pat repl s = s := by
  rw [replaceSub, replaceSubAux]
  rw [replaceSubFuel_id _ _ _ _ h]

/-- The word-wrapping fold leaves text without any of the listed words
unchanged. -/
theorem foldl_wrap_id (ws : List String) (t : String)
    (h : ∀ w ∈ ws, hasWordCI w.data false t.data = false) :
    ws.foldl (fun acc w => replaceWordCI w (fun m => createSafeTooltip m) acc) t
      = t := by
  induction ws with
  | nil => rfl
  | cons w ws ih =>
    rw [List.foldl_cons]
    rw [replaceWordCI_id w _ t (h w (by simp))]
    exact ih (fun w' hw' => h w' (by simp [hw']))

/-- The placeholder-restore fold leaves text without any placeholder
token unchanged. -/
theorem foldl_restore_id (ws : List String) (t : String)
    (h : ∀ w ∈ ws, containsSub (placeholderOf w).data t.data = false) :
    ws.foldl (fun acc w => replaceSub (placeholderOf w) w acc) t = t := by
  induction ws with
  | nil => rfl
  | cons w ws ih =>
    rw [List.foldl_cons]
    rw [replaceSub_id (placeholderOf w) w t (h w (by simp))]
    exact ih (fun w' hw' => h w' (by simp [hw']))

/-- Inserting into the length-sorted list adds no new elements. -/
theorem mem_insertByLenDesc {y x : String} :
    ∀ {l : List String}, y ∈ insertByLenDesc x l → y = x ∨ y ∈ l
  | [], h => by simpa [insertByLenDesc] using h
  | z :: zs, h => by
    rw [insertByLenDesc] at h
    split at h
    · rcases List.mem_cons.mp h with h1 | h1
      · exact Or.inl h1
      · exact Or.inr h1
    · rcases List.mem_cons.mp h with h1 | h1
      · exact Or.inr (List.mem_cons.mpr (Or.inl h1))
      · rcases mem_insertByLenDesc h1 with h2 | h2
        · exact Or.inl h2
        · exact Or.inr (List.mem_cons.mpr (Or.inr h2))

/-- The length sort adds no new elements. -/
theorem mem_sortByLenDesc {y : String} :
    ∀ {l : List String}, y ∈ sortByLenDesc l → y ∈ l
  | [], h => by simp [sortByLenDesc] at h
  | x :: xs, h => by
    rw [sortByLenDesc, List.foldr_cons] at h
    rcases mem_insertByLenDesc h with h1 | h1
    · exact List.mem_cons.mpr (Or.inl h1)
    · exact List.mem_cons.mpr (Or.inr (mem_sortByLenDesc h1))

/-- Tag stripping is the identity on `<`-free text. -/
theorem stripTagsAux_id :
    ∀ s : List Char, s.contains '<' = false → stripTagsAux false s = s
  | [], _ => rfl
  | c :: cs, h => by
    simp only [List.contains_cons, Bool.or_eq_false_iff,
      beq_eq_false_iff_ne] at h
    rw [stripTagsAux]
    rw [if_neg (fun hc => h.1 hc.symm)]
    rw [stripTagsAux_id cs h.2]

/-- String version of `stripTagsAux_id`. -/
theorem stripTags_id (t : String) (h : tagFree t = true) : stripTags t = t := by
  rw [stripTags]
  rw [stripTagsAux_id t.data (by simpa [tagFree] using h)]

set_option maxRecDepth 40000 in
/-- C2 counterexample: on the input `"riddle"` the tooltip markup adds
the word, its definition and its example as visible text, so stripping
tags does not reproduce the input; and a second application re-matches
the word inside the produced markup (`data-word="riddle"`, the visible
word, the `<strong>` copy, the restored example), creating
vocabulary-word spans nested inside the original span — while a single
application produces none. -/
theorem C2_counterexample :
    stripTags (highlightVocabularyWords "riddle") ≠ "riddle" ∧
    hasNestedVW (highlightVocabularyWords (highlightVocabularyWords "riddle"))
      = true ∧
    hasNestedVW (highlightVocabularyWords "riddle") = false :=
  ⟨by decide, by decide, by decide⟩

/-- C2 (amended): `highlightVocabularyWords` is the identity — and
hence round-trips through tag stripping and is idempotent — exactly on
text containing no whole-word occurrence of a dictionary word (and no
placeholder token, and no `<` for the stripping half); on text that
does contain a dictionary word, tag stripping does not reproduce the
input and re-application introduces nested markup
(`C2_counterexample`). -/
theorem C2_highlight_noVocab (t : String) (h1 : noVocabText t = true)
    (h2 : tagFree t = true) :
    highlightVocabularyWords t = t ∧
    stripTags (highlightVocabularyWords t) = t ∧
    highlightVocabularyWords (highlightVocabularyWords t) = t := by
  have hparts := h1
  rw [noVocabText, Bool.and_eq_true] at hparts
  have hw : ∀ w ∈ dbKeys, hasWordCI w.data false t.data = false := by
    intro w hwmem
    have := List.all_eq_true.mp hparts.1 w hwmem
    simpa using this
  have hp : ∀ w ∈ dbKeys, containsSub (placeholderOf w).data t.data = false := by
    intro w hwmem
    have := List.all_eq_true.mp hparts.2 w hwmem
    simpa using this
  have hmain : highlightVocabularyWords t = t := by
    rw [highlightVocabularyWords]
    rw [foldl_wrap_id _ _ (fun w hwm => hw w (mem_sortByLenDesc hwm))]
    exact foldl_restore_id _ _ hp
  exact ⟨hmain, by rw [hmain]; exact stripTags_id t h2, by rw [hmain, hmain]⟩

/-- Witness for C2 on vocabulary-free text. -/
theorem C2_highlight_noVocab_witness :
    highlightVocabularyWords "hello there" = "hello there" ∧
    stripTags (highlightVocabularyWords "hello there") = "hello there" ∧
    highlightVocabularyWords (highlightVocabularyWords "hello there") =
      "hello there" :=
  C2_highlight_noVocab "hello there" (by decide) (by decide)

end DyslexiQuest
